import Mathlib

/-
Verification of the envkit environment bootstrapper (src/envkit.py).

The development shallowly embeds the task-processing pipeline of envkit:
  - string helpers model the Python `str` operations used by the source
    (`in`, `replace`, `split`, `startswith`, `endswith`);
  - a small path model captures the `pathlib` operations used by the source
    (`Path(p) / q`, `.name`, `.suffix`, `.parent`);
  - the functions `download_github`, `extract_file`, `process_downloads`,
    `get_secrets` and `setup` are translated from the source, returning
    explicit traces of the external calls they would perform (console output
    is kept only where a property refers to it; messages are abbreviated);
  - filesystem and network outcomes are supplied by oracles in `World`,
    since the real operations are side effects.
-/

namespace EnvKit

/-- Tests whether the list `pat` is an initial segment of the list `l`.
Building block for the Python string predicates below. -/
def startsWithList : List Char → List Char → Bool
  | [], _ => true
  | _ :: _, [] => false
  | p :: ps, c :: cs => p == c && startsWithList ps cs

/-- Auxiliary scan for substring containment: does `pat` occur in `l`? -/
def containsSubAux (pat : List Char) : List Char → Bool
  | [] => pat.isEmpty
  | l@(_ :: rest) => startsWithList pat l || containsSubAux pat rest

/-- Models the Python expression `pat in s` (substring containment). -/
def strContains (s pat : String) : Bool :=
  containsSubAux pat.data s.data

/-- Models Python `s.startswith(pat)`. -/
def strStartsWith (s pat : String) : Bool :=
  startsWithList pat.data s.data

/-- Models Python `s.endswith(pat)`. -/
def strEndsWith (s pat : String) : Bool :=
  startsWithList pat.data.reverse s.data.reverse

/-- Fuel-indexed left-to-right non-overlapping replacement on character
lists; the fuel is instantiated with the length of the subject string, which
bounds the number of scan steps. -/
def replaceFuel (pat repl : List Char) : Nat → List Char → List Char
  | _, [] => []
  | 0, l => l
  | Nat.succ n, l@(c :: rest) =>
    if startsWithList pat l then repl ++ replaceFuel pat repl n (l.drop pat.length)
    else c :: replaceFuel pat repl n rest

/-- Models Python `s.replace(pat, repl)`: every non-overlapping occurrence of
`pat`, scanned left to right, is replaced by `repl`.  (For the empty pattern
Python interleaves `repl` everywhere; the source only ever replaces the
non-empty literals `"github.com"`, `"/blob/"` and `"https://"`, so that case
is mapped to the identity.) -/
def strReplace (s pat repl : String) : String :=
  if pat.data.isEmpty then s
  else String.mk (replaceFuel pat.data repl.data s.data.length s.data)

/-- Models Python `s.split(sep)` for a one-character separator: splits on
every occurrence, keeping empty segments, and never returns an empty list. -/
def splitOnChar (sep : Char) : List Char → List (List Char)
  | [] => [[]]
  | c :: rest =>
    if c = sep then [] :: splitOnChar sep rest
    else
      match splitOnChar sep rest with
      | [] => [[c]]
      | h :: t => (c :: h) :: t

/-- The remainder of `l` after the first occurrence of `pat`, if any. -/
def afterFirst (pat : List Char) : List Char → Option (List Char)
  | [] => if pat.isEmpty then some [] else none
  | l@(_ :: rest) =>
    if startsWithList pat l then some (l.drop pat.length)
    else afterFirst pat rest

/-- The host component of a URL: the characters between the first `://` and
the next `/`.  This formalises the notion of "URL host" used by the claims;
the source itself never parses hosts, it only tests substring containment. -/
def urlHost (url : String) : String :=
  match afterFirst "://".data url.data with
  | some rest => String.mk (rest.takeWhile (fun c => c != '/'))
  | none => ""

/-! ### Path model (the `pathlib` operations used by the source) -/

/-- The non-empty, non-`"."` slash-separated components of a path string,
mirroring how `PurePosixPath` parses its argument. -/
def pathComps (p : String) : List (List Char) :=
  (splitOnChar '/' p.data).filter (fun c => !c.isEmpty && c != ['.'])

/-- Models `Path(p).name`: the final component of the path (empty for `"/"`,
`"."` and the empty string). -/
def pathName (p : String) : String :=
  String.mk ((pathComps p).getLast?.getD [])

/-- Models `Path(p).suffix` as implemented by `pathlib`: the substring of
`name` from its last dot, provided that dot is neither the first nor the
last character of `name`; otherwise the empty string. -/
def pathSuffix (p : String) : String :=
  let name := (pathName p).data
  match name.reverse.findIdx? (fun c => c == '.') with
  | some r =>
    let i := name.length - 1 - r
    if 0 < i ∧ i < name.length - 1 then String.mk (name.drop i) else ""
  | none => ""

/-- Models `str(Path(p).parent)`: the path with its last component removed
(`"/"` for a one-component absolute path, `"."` for a one-component relative
path). -/
def pathParent (p : String) : String :=
  let par := (pathComps p).dropLast
  if strStartsWith p "/" then String.mk ('/' :: List.intercalate ['/'] par)
  else if par.isEmpty then "." else String.mk (List.intercalate ['/'] par)

/-- Models `str(Path(p) / q)`: if `q` is absolute it replaces `p` entirely
(the `pathlib` anchor rule), otherwise the two are joined with a slash.
`pathlib` additionally collapses duplicate slashes and drops `.` segments in
the printed form; no claim depends on that normalisation, so the join keeps
the raw characters. -/
def pathJoin (p q : String) : String :=
  if strStartsWith q "/" then q else p ++ "/" ++ q

/-! ### Data model -/

/-- YAML scalar values as they reach the task fields.  Only the shapes the
claims exercise are represented: null, booleans, integers and strings.  The
flag checks in `process_downloads` are `task.get('extract') is True`, a
Python identity test that only the boolean `True` passes. -/
inductive YVal where
  | null : YVal
  | bool (b : Bool) : YVal
  | int (n : Int) : YVal
  | str (s : String) : YVal
  deriving DecidableEq

/-- Python truthiness of the modelled YAML scalars: `None`, `False`, `0` and
`""` are falsy, everything else is truthy. -/
def YVal.truthy : YVal → Bool
  | .null => false
  | .bool b => b
  | .int n => n != 0
  | .str s => s != ""

/-- Python truthiness of an optional string (`None` and `""` are falsy). -/
def optTruthy : Option String → Bool
  | some s => s != ""
  | none => false

/-- One entry of the configuration's `download` list.  A `none` field models
an absent key; the source reads string-valued fields with `task['...']` or
`task.get('path', '.')` and flag fields with `task.get(...)`. -/
structure Task where
  url : Option String := none
  github_file : Option String := none
  github_repo : Option String := none
  kaggle_competition : Option String := none
  kaggle_dataset : Option String := none
  path : Option String := none
  extract : Option YVal := none
  extract_to : Option String := none
  remove_compression : Option YVal := none
  execute : Option YVal := none
  deriving DecidableEq

/-- Python truthiness of a task mapping: a dict is falsy iff it is empty. -/
def Task.isEmptyDict (t : Task) : Bool :=
  t.url.isNone && t.github_file.isNone && t.github_repo.isNone &&
  t.kaggle_competition.isNone && t.kaggle_dataset.isNone && t.path.isNone &&
  t.extract.isNone && t.extract_to.isNone && t.remove_compression.isNone &&
  t.execute.isNone

/-- The `download` key of the configuration: absent, a single mapping, or a
sequence of mappings (`process_downloads` normalises a single mapping into a
one-element list). -/
inductive DownloadSpec where
  | absent : DownloadSpec
  | one (t : Task) : DownloadSpec
  | many (ts : List Task) : DownloadSpec
  deriving DecidableEq

/-- The configuration document: `platform` (any YAML scalar; validated in
`setup`), `packages`, and the `download` task list. -/
structure Config where
  platform : Option YVal := none
  packages : List String := []
  download : DownloadSpec := .absent
  deriving DecidableEq

/-- The secret bundle built once per run by `get_secrets`; `none` models a
secret that could not be retrieved (Python `None`). -/
structure Secrets where
  github_token : Option String := none
  kaggle_username : Option String := none
  kaggle_key : Option String := none
  deriving DecidableEq

/-- Oracles for the ambient side effects: filesystem tests and the
success/failure of the external operations, which the source observes only
through raised exceptions. -/
structure World where
  pathExists : String → Bool
  isFile : String → Bool
  extractOk : String → Bool
  cloneOk : String → Bool
  httpOk : String → Bool

/-- One external call or console message of the fetch/extract functions. -/
inductive Act where
  | info (msg : String) : Act
  | warn (msg : String) : Act
  | gitClone (url target : String) : Act
  | mkParents (target : String) : Act
  | httpGet (url target : String) (auth : Option String) : Act
  | extractZip (file dest : String) : Act
  | extractTar (file dest : String) : Act
  | removeFile (file : String) : Act
  deriving DecidableEq

/-! ### `download_github` (src/envkit.py lines 217-264) -/

/-- The github resource type argument of `download_github`. -/
inductive GithubType where
  | file : GithubType
  | repo : GithubType
  deriving DecidableEq

/-- The raw-URL rewrite of `download_github`'s file branch (lines 244-247):
if the URL contains both `'github.com'` and `'/blob/'` as substrings, every
occurrence of `'github.com'` is replaced by `'raw.githubusercontent.com'`
and every `'/blob/'` by `'/'`; otherwise the URL is kept. -/
def github_raw_url (url : String) : String :=
  if strContains url "github.com" && strContains url "/blob/" then
    strReplace (strReplace url "github.com" "raw.githubusercontent.com") "/blob/" "/"
  else url

/-- Translation of `download_github` (lines 217-264) as the trace of calls
it performs.  The repo branch injects the token into an `https://` URL,
skips entirely when the target path exists, and otherwise clones; the file
branch rejects `/tree/` URLs, rewrites via `github_raw_url`, attaches the
token as an Authorization header when truthy, and streams to the target. -/
def download_github (w : World) (url target_path : String)
    (rtype : GithubType) (token : Option String) : List Act :=
  match rtype with
  | .repo =>
    let final_url :=
      if optTruthy token && strStartsWith url "https://" then
        strReplace url "https://" ("https://" ++ token.getD "" ++ "@")
      else url
    if w.pathExists target_path then
      [.info "Processing github repo", .warn "Target path already exists",
       .warn "Skipped clone"]
    else if w.cloneOk final_url then
      [.info "Processing github repo", .gitClone final_url target_path,
       .info "Git clone completed"]
    else
      [.info "Processing github repo", .gitClone final_url target_path,
       .warn "Git clone failed"]
  | .file =>
    if strContains url "/tree/" then
      [.info "Processing github file", .warn "URL contains /tree/, which is a folder",
       .warn "github_file is for single file only"]
    else
      let raw_url := github_raw_url url
      let auth := if optTruthy token then token else none
      if w.httpOk raw_url then
        [.info "Processing github file", .mkParents target_path,
         .httpGet raw_url target_path auth, .info "GitHub file download completed"]
      else
        [.info "Processing github file", .mkParents target_path,
         .httpGet raw_url target_path auth, .warn "GitHub file download failed"]

/-! ### `extract_file` (src/envkit.py lines 134-165) -/

/-- The tar-family test of `extract_file` (line 151):
`path.name.endswith(('.tar', '.tar.gz', '.tar.xz', '.tgz'))`. -/
def isTarArchiveName (p : String) : Bool :=
  strEndsWith (pathName p) ".tar" || strEndsWith (pathName p) ".tar.gz" ||
  strEndsWith (pathName p) ".tar.xz" || strEndsWith (pathName p) ".tgz"

/-- Translation of `extract_file` (lines 134-165) as the trace of calls it
performs.  Missing or non-regular files and unknown suffixes produce only a
warning; a recognised archive is extracted to `extract_to` (default: the
file's parent directory); the source archive is removed exactly when
`remove_archieve` is set and the extraction call did not raise. -/
def extract_file (w : World) (file_path : String) (extract_to : Option String)
    (remove_archieve : Bool) : List Act :=
  if w.pathExists file_path then
    if w.isFile file_path then
      let target_dir := extract_to.getD (pathParent file_path)
      if pathSuffix file_path == ".zip" then
        if w.extractOk file_path then
          [.info "Extracting", .extractZip file_path target_dir, .info "Extraction completed"]
            ++ (if remove_archieve then
                  [.removeFile file_path, .info "Removed source archieve"] else [])
        else [.info "Extracting", .extractZip file_path target_dir, .warn "Extraction failed"]
      else if isTarArchiveName file_path then
        if w.extractOk file_path then
          [.info "Extracting", .extractTar file_path target_dir, .info "Extraction completed"]
            ++ (if remove_archieve then
                  [.removeFile file_path, .info "Removed source archieve"] else [])
        else [.info "Extracting", .extractTar file_path target_dir, .warn "Extraction failed"]
      else [.info "Extracting", .warn "Unknown archive format", .warn "Skipped extraction"]
    else [.warn "Not a file"]
  else [.warn "File not found"]

/-! ### The task pipeline, `process_downloads` (src/envkit.py lines 283-320) -/

/-- The kaggle resource type argument of `download_kaggle`. -/
inductive KaggleType where
  | competition_files : KaggleType
  | dataset : KaggleType
  deriving DecidableEq

/-- The one fetch call a task dispatches to (lines 296-310), with the
arguments the pipeline passes. -/
inductive FetchCall where
  | urlFetch (url target : String) : FetchCall
  | github (url target : String) (rtype : GithubType) (token : Option String) : FetchCall
  | kaggle (name target : String) (rtype : KaggleType) : FetchCall
  deriving DecidableEq

/-- The arguments of one `extract_file` invocation made by the pipeline. -/
structure ExtractCall where
  file : String
  dest : Option String
  remove : Bool
  deriving DecidableEq

/-- What one loop iteration of `process_downloads` does: at most one fetch
call, then optionally one `extract_file` call and one `execute_script` call,
in that order.  `crashed` records the uncaught `TypeError` that arises when
the extract block reads a kaggle archive path that was never computed
(possible only when a kaggle key coexists with a higher-precedence source
key); the Python loop would abort there. -/
structure TaskTrace where
  fetch : Option FetchCall := none
  extractCall : Option ExtractCall := none
  execCall : Option String := none
  crashed : Bool := false
  deriving DecidableEq

/-- Python `name.split('/')[-1]`: the final slash-separated segment of a
kaggle dataset name (line 309). -/
def datasetSlug (name : String) : String :=
  String.mk ((splitOnChar '/' name.data).getLast?.getD [])

/-- The implied archive path of a kaggle competition download (line 305):
`Path(target_path) / f"{name}.zip"`. -/
def kaggleCompetitionArchive (target_path name : String) : String :=
  pathJoin target_path (name ++ ".zip")

/-- The implied archive path of a kaggle dataset download (lines 309-310):
`Path(target_path) / f"{slug}.zip"` where `slug` is the final `/`-separated
segment of the dataset name. -/
def kaggleDatasetArchive (target_path name : String) : String :=
  pathJoin target_path (datasetSlug name ++ ".zip")

/-- One iteration of the `process_downloads` loop (lines 293-320).  The
source dispatches on the first present source key in the order url,
github_file, github_repo, kaggle_competition, kaggle_dataset; computes the
implied kaggle archive path for the kaggle branches; substitutes it for the
target path inside the extract block when a kaggle key is present; and runs
the extract and execute steps only when the corresponding flag `is True`. -/
def processTask (task : Task) (secrets : Secrets) : TaskTrace :=
  let target_path := task.path.getD "."
  let fk : Option FetchCall × Option String :=
    match task.url, task.github_file, task.github_repo,
          task.kaggle_competition, task.kaggle_dataset with
    | some u, _, _, _, _ => (some (.urlFetch u target_path), none)
    | none, some u, _, _, _ =>
      (some (.github u target_path .file secrets.github_token), none)
    | none, none, some u, _, _ =>
      (some (.github u target_path .repo secrets.github_token), none)
    | none, none, none, some n, _ =>
      (some (.kaggle n target_path .competition_files),
       some (kaggleCompetitionArchive target_path n))
    | none, none, none, none, some n =>
      (some (.kaggle n target_path .dataset),
       some (kaggleDatasetArchive target_path n))
    | none, none, none, none, none => (none, none)
  if task.extract = some (.bool true) then
    let kagglePres := task.kaggle_competition.isSome || task.kaggle_dataset.isSome
    match (if kagglePres then fk.2 else some target_path) with
    | none => { fetch := fk.1, crashed := true }
    | some tp =>
      { fetch := fk.1
        extractCall := some { file := tp, dest := task.extract_to,
                              remove := (task.remove_compression.getD (.bool false)).truthy }
        execCall := if task.execute = some (.bool true) then some tp else none }
  else
    { fetch := fk.1
      execCall := if task.execute = some (.bool true) then some target_path else none }

/-- The task loop: strictly sequential; an uncaught exception in one
iteration aborts the remaining tasks. -/
def runTasks (secrets : Secrets) : List Task → List TaskTrace
  | [] => []
  | t :: ts =>
    let r := processTask t secrets
    if r.crashed then [r] else r :: runTasks secrets ts

/-- The `download` normalisation of `process_downloads` (lines 284-289):
`config.get('download', [])`, return on a falsy value (absent key, empty
list, or empty mapping), and wrapping of a single mapping into a list. -/
def tasksOf : DownloadSpec → List Task
  | .absent => []
  | .one t => if t.isEmptyDict then [] else [t]
  | .many ts => ts

/-- Translation of `process_downloads` (lines 283-320) as the list of
per-task traces. -/
def process_downloads (cfg : Config) (secrets : Secrets) : List TaskTrace :=
  runTasks secrets (tasksOf cfg.download)

/-! ### `setup` (src/envkit.py lines 324-363) and its collaborators -/

/-- The process environment, as an association list read through `envGet`;
later entries shadow earlier ones. -/
abbrev Env : Type := List (String × String)

/-- Reads an environment variable (`os.getenv`). -/
def envGet (e : Env) (k : String) : Option String :=
  (List.find? (fun p => p.1 == k) e).map (fun p => p.2)

/-- Writes an environment variable (`os.environ[k] = v`). -/
def envSet (e : Env) (k v : String) : Env :=
  (k, v) :: e

/-- Oracles for `detect_platform` (lines 53-71): whether `google.colab` is
importable, and whether all four canonical kaggle paths exist. -/
structure DetectCtx where
  colabImportable : Bool
  kagglePathsExist : Bool

/-- Translation of `detect_platform` (lines 53-71). -/
def detect_platform (d : DetectCtx) : String :=
  if d.colabImportable then "colab"
  else if d.kagglePathsExist then "kaggle"
  else "local"

/-- Oracles for `get_secrets` (lines 73-130): the platform secret stores
(`none` models a lookup that raised), whether their client modules import,
and the dotenv file contents for the local branch. -/
structure SecretCtx where
  colabImportOk : Bool
  colabGet : String → Option String
  kaggleImportOk : Bool
  kaggleGet : String → Option String
  dotenvOk : Bool
  dotenvVars : List (String × String)

/-- Modelled from the spec: the `load_dotenv()` collaborator used by the
local branch of `get_secrets` is the python-dotenv library, not code of this
repository.  Per spec section 4.2 it loads a dotenv-style file into the
process environment; entries do not override variables that are already
set (the library's default). -/
def load_dotenv (vars : List (String × String)) (env : Env) : Env :=
  vars.foldl (fun e kv => if (envGet e kv.1).isSome then e else envSet e kv.1 kv.2) env

/-- Translation of `get_secrets` (lines 73-130), returning the secret bundle
together with the process environment after the call (only the local branch,
via `load_dotenv`, can change it). -/
def get_secrets (sc : SecretCtx) (platform : String) (env : Env) : Secrets × Env :=
  if platform == "colab" then
    (if sc.colabImportOk then
       { github_token := sc.colabGet "GITHUB_TOKEN"
         kaggle_username := sc.colabGet "KAGGLE_USERNAME"
         kaggle_key := sc.colabGet "KAGGLE_KEY" }
     else {}, env)
  else if platform == "kaggle" then
    (if sc.kaggleImportOk then
       { github_token := sc.kaggleGet "GITHUB_TOKEN"
         kaggle_username := sc.kaggleGet "KAGGLE_USERNAME"
         kaggle_key := sc.kaggleGet "KAGGLE_KEY" }
     else {}, env)
  else
    if sc.dotenvOk then
      let env2 := load_dotenv sc.dotenvVars env
      ({ github_token := envGet env2 "GITHUB_TOKEN"
         kaggle_username := envGet env2 "KAGGLE_USERNAME"
         kaggle_key := envGet env2 "KAGGLE_KEY" }, env2)
    else ({}, env)

/-- The platform validity test of `setup` (line 339):
`platform not in ['auto', 'colab', 'kaggle', 'local']` is an error; the
membership test fails for every non-string value. -/
def validPlatform : YVal → Bool
  | .str s => s == "auto" || s == "colab" || s == "kaggle" || s == "local"
  | _ => false

/-- The platform resolution of `setup` (lines 342-343): `auto` is replaced
by the detected platform.  Only called on validated values, so the
non-string arm is never reached. -/
def setupPlatform (d : DetectCtx) : YVal → String
  | .str s => if s == "auto" then detect_platform d else s
  | _ => ""

/-- The observable steps of `setup` after the configuration is loaded. -/
inductive SetupStep where
  | errorInvalidPlatform (p : YVal) : SetupStep
  | secretsLoaded (platform : String) : SetupStep
  | envWrite (key value : String) : SetupStep
  | warnCredsNotSet : SetupStep
  | installPackages (pkgs : List String) : SetupStep
  | downloads (traces : List TaskTrace) : SetupStep
  deriving DecidableEq

/-- Translation of `setup` (lines 324-363) from the platform check onward
(the configuration is taken as already parsed; a missing or malformed file
returns `False` earlier).  An invalid platform prints an error and returns
`None` immediately; otherwise the run loads secrets, writes the kaggle
credentials into the environment exactly when both are truthy, installs
packages, processes downloads, and returns `True`.  The result is the list
of steps, the final environment, and the Python return value. -/
def setup (d : DetectCtx) (sc : SecretCtx) (cfg : Config) (env : Env) :
    List SetupStep × Env × Option Bool :=
  let pval := cfg.platform.getD (.str "auto")
  if validPlatform pval then
    let platform := setupPlatform d pval
    let se := get_secrets sc platform env
    let credsAndEnv :=
      if optTruthy se.1.kaggle_username && optTruthy se.1.kaggle_key then
        ([SetupStep.envWrite "KAGGLE_USERNAME" (se.1.kaggle_username.getD ""),
          SetupStep.envWrite "KAGGLE_KEY" (se.1.kaggle_key.getD "")],
         envSet (envSet se.2 "KAGGLE_USERNAME" (se.1.kaggle_username.getD ""))
           "KAGGLE_KEY" (se.1.kaggle_key.getD ""))
      else ([SetupStep.warnCredsNotSet], se.2)
    ([SetupStep.secretsLoaded platform] ++ credsAndEnv.1 ++
       [SetupStep.installPackages cfg.packages,
        SetupStep.downloads (process_downloads cfg se.1)],
     credsAndEnv.2, some true)
  else ([SetupStep.errorInvalidPlatform pval], env, none)

/-- The exit code computed by `main` (line 404): `sys.exit(0 if
is_successful else 1)`; only the return value `True` is truthy. -/
def main_exit (r : Option Bool) : Nat :=
  if r = some true then 0 else 1

/-! ### Concrete instances used by witnesses and counterexamples -/

/-- A world in which every path exists, everything is a regular file, and
every external operation succeeds. -/
def w0 : World :=
  { pathExists := fun _ => true, isFile := fun _ => true,
    extractOk := fun _ => true, cloneOk := fun _ => true, httpOk := fun _ => true }

/-- An empty secret bundle. -/
def s0 : Secrets := {}

/-- A detection context for a plain local machine. -/
def d0 : DetectCtx := { colabImportable := false, kagglePathsExist := false }

/-- A secret context whose dotenv file defines only the unrelated variable
`FOO`. -/
def scFoo : SecretCtx :=
  { colabImportOk := true, colabGet := fun _ => none,
    kaggleImportOk := true, kaggleGet := fun _ => none,
    dotenvOk := true, dotenvVars := [("FOO", "bar")] }

/-- A secret context whose dotenv file defines both kaggle credentials. -/
def scCreds : SecretCtx :=
  { colabImportOk := true, colabGet := fun _ => none,
    kaggleImportOk := true, kaggleGet := fun _ => none,
    dotenvOk := true,
    dotenvVars := [("KAGGLE_USERNAME", "alice"), ("KAGGLE_KEY", "k1")] }

/-! ## Supporting lemmas -/

/-- Splitting never yields an empty list of segments. -/
theorem splitOnChar_ne_nil (sep : Char) (l : List Char) : splitOnChar sep l ≠ [] := by
  induction l with
  | nil => simp [splitOnChar]
  | cons c rest ih =>
    unfold splitOnChar
    split
    · simp
    · split <;> simp

/-- No segment produced by `splitOnChar` contains the separator. -/
theorem sep_not_mem_splitOnChar (sep : Char) (l : List Char) :
    ∀ seg ∈ splitOnChar sep l, sep ∉ seg := by
  induction l with
  | nil =>
    intro seg h
    simp only [splitOnChar, List.mem_singleton] at h
    simp [h]
  | cons c rest ih =>
    intro seg h
    unfold splitOnChar at h
    by_cases hc : c = sep
    · rw [if_pos hc] at h
      rcases List.mem_cons.mp h with h1 | h1
      · simp [h1]
      · exact ih seg h1
    · rw [if_neg hc] at h
      cases hr : splitOnChar sep rest with
      | nil => exact absurd hr (splitOnChar_ne_nil sep rest)
      | cons hd tl =>
        rw [hr] at h
        rcases List.mem_cons.mp h with h1 | h1
        · subst h1
          intro hmem
          rcases List.mem_cons.mp hmem with h2 | h2
          · exact hc h2.symm
          · exact ih hd (hr ▸ List.mem_cons_self hd tl) h2
        · exact ih seg (hr ▸ List.mem_cons_of_mem hd h1)

/-- Appending strings concatenates their character data. -/
theorem strData_append (a b : String) : (a ++ b).data = a.data ++ b.data := rfl

/-- A kaggle dataset slug followed by `.zip` never forms an absolute path:
the slug is a segment of a slash-split, so it cannot start with `/`. -/
theorem slug_zip_not_abs (n : String) :
    strStartsWith (datasetSlug n ++ ".zip") "/" = false := by
  unfold strStartsWith datasetSlug
  rw [strData_append]
  have hslash : ("/" : String).data = ['/'] := rfl
  rw [hslash]
  cases hl : (splitOnChar '/' n.data).getLast? with
  | none =>
    simp only [Option.getD, List.nil_append]
    decide
  | some seg =>
    have hmem := List.mem_of_mem_getLast? hl
    have hns := sep_not_mem_splitOnChar '/' n.data seg hmem
    simp only [Option.getD]
    cases seg with
    | nil => simp [startsWithList]
    | cons c cs =>
      have hne : ('/' : Char) ≠ c := fun hh => hns (hh ▸ List.mem_cons_self c cs)
      simp [startsWithList, hne]

/-- A path extended with a slash and a `.zip`-suffixed segment is a strictly
longer string than the original path. -/
theorem append_slash_zip_ne (t s : String) : t ++ "/" ++ s ++ ".zip" ≠ t := by
  intro h
  have hl := congrArg String.length h
  rw [String.length_append, String.length_append, String.length_append] at hl
  have h1 : ("/" : String).length = 1 := rfl
  have h2 : (".zip" : String).length = 4 := rfl
  rw [h1, h2] at hl
  omega

/-- The competition archive path spelled out, for names that do not begin
with a slash. -/
theorem kaggleCompetitionArchive_eq (t n : String)
    (h : strStartsWith (n ++ ".zip") "/" = false) :
    kaggleCompetitionArchive t n = t ++ "/" ++ n ++ ".zip" := by
  unfold kaggleCompetitionArchive pathJoin
  rw [h]
  simp [String.append_assoc]

/-- The dataset archive path spelled out; no side condition is needed since
the slug can never start with a slash. -/
theorem kaggleDatasetArchive_eq (t n : String) :
    kaggleDatasetArchive t n = t ++ "/" ++ datasetSlug n ++ ".zip" := by
  unfold kaggleDatasetArchive pathJoin
  rw [slug_zip_not_abs n]
  simp [String.append_assoc]

/-- Reading back the variable just written. -/
theorem envGet_set_self (e : Env) (k v : String) : envGet (envSet e k v) k = some v := by
  simp [envGet, envSet]

/-- Writing one variable leaves every other variable unchanged. -/
theorem envGet_set_other (e : Env) (k v k2 : String) (h : k2 ≠ k) :
    envGet (envSet e k v) k2 = envGet e k2 := by
  have hk : (k == k2) = false := beq_eq_false_iff_ne.mpr (Ne.symm h)
  simp [envGet, envSet, List.find?, hk]

/-! ## Claim theorems -/

/-- C4: for every github_repo task whose target path already exists at fetch
time, no clone operation is invoked; the task is skipped with two warnings
(`Target path already exists`, `Skipped clone`) rather than a clone-failure,
and the trace contains no filesystem-modifying action, so the existing path
is left unmodified. -/
theorem C4_repo_existing_path_skipped (w : World) (s : Secrets) (task : Task) (u : String)
    (hu : task.url = none) (hgf : task.github_file = none) (hgr : task.github_repo = some u)
    (hex : w.pathExists (task.path.getD ".") = true) :
    (processTask task s).fetch = some (.github u (task.path.getD ".") .repo s.github_token)
    ∧ download_github w u (task.path.getD ".") .repo s.github_token =
        [.info "Processing github repo", .warn "Target path already exists",
         .warn "Skipped clone"]
    ∧ ∀ cu ct, Act.gitClone cu ct ∉
        download_github w u (task.path.getD ".") .repo s.github_token := by
  refine ⟨?_, ?_, ?_⟩
  · rcases hkc : task.kaggle_competition with _ | n <;>
      rcases hkd : task.kaggle_dataset with _ | m <;>
      by_cases hx : task.extract = some (YVal.bool true) <;>
      simp [processTask, hu, hgf, hgr, hkc, hkd, hx]
  · simp [download_github, hex]
  · intro cu ct
    simp [download_github, hex]

/-- Witness for C4 at a concrete repo task with an existing target. -/
theorem C4_repo_existing_path_skipped_witness :
    download_github w0 "https://github.com/o/r" "/tmp/repo" .repo none =
      [.info "Processing github repo", .warn "Target path already exists",
       .warn "Skipped clone"] := by
  have h := C4_repo_existing_path_skipped w0 s0
    { github_repo := some "https://github.com/o/r", path := some "/tmp/repo" }
    "https://github.com/o/r" rfl rfl rfl (by decide)
  exact h.2.1

/-- C5: in `extract_file`, the source archive is removed exactly when the
`deleteSource` flag is set, the file exists and is a regular file, the
suffix is a recognised archive format, and the extraction call succeeded; in
particular an extraction failure or an unrecognised suffix leaves the
archive on disk. -/
theorem C5_remove_only_after_success (w : World) (fp : String) (eto : Option String)
    (rm : Bool) :
    Act.removeFile fp ∈ extract_file w fp eto rm ↔
      (rm = true ∧ w.pathExists fp = true ∧ w.isFile fp = true ∧
       (pathSuffix fp == ".zip" || isTarArchiveName fp) = true ∧
       w.extractOk fp = true) := by
  simp only [extract_file]
  split_ifs <;> simp_all

/-- C6: a configuration whose `download` key is absent or maps to an empty
sequence produces an empty pipeline trace: no fetch, extract, or execute
call is made and the pipeline returns normally. -/
theorem C6_empty_download_noop (cfg : Config) (s : Secrets)
    (h : cfg.download = .absent ∨ cfg.download = .many []) :
    process_downloads cfg s = [] := by
  rcases h with h | h <;> simp [process_downloads, tasksOf, h, runTasks]

/-- Witness for C6 at a configuration with no `download` key. -/
theorem C6_empty_download_noop_witness :
    process_downloads { download := .absent } s0 = [] :=
  C6_empty_download_noop { download := .absent } s0 (Or.inl rfl)

/-- C7: a configuration whose `platform` value is not one of auto, colab,
kaggle, local makes `setup` emit only the fatal configuration error and
return `None` immediately — no secret loading, no credential write, no
package installation, no download step — and `main` exits with code 1. -/
theorem C7_invalid_platform_fatal (d : DetectCtx) (sc : SecretCtx) (cfg : Config) (env : Env)
    (h : validPlatform (cfg.platform.getD (.str "auto")) = false) :
    setup d sc cfg env =
      ([.errorInvalidPlatform (cfg.platform.getD (.str "auto"))], env, none)
    ∧ main_exit (setup d sc cfg env).2.2 = 1 := by
  constructor
  · simp [setup, h]
  · simp [setup, h, main_exit]

/-- Witness for C7 at `platform: "bogus"`. -/
theorem C7_invalid_platform_fatal_witness :
    setup d0 scFoo { platform := some (.str "bogus") } [] =
      ([.errorInvalidPlatform (.str "bogus")], [], none)
    ∧ main_exit (setup d0 scFoo { platform := some (.str "bogus") } []).2.2 = 1 := by
  have h := C7_invalid_platform_fatal d0 scFoo { platform := some (.str "bogus") } []
    (by decide)
  exact ⟨h.1.trans (by decide), h.2⟩

/-- C8: the extract and execute steps run only when the corresponding flag
is the boolean `True` under Python's `is` identity test: for any other
value, truthy or not, no extract call (and no crash) and no execute call is
made. -/
theorem C8_flags_require_identity_true (task : Task) (s : Secrets) :
    (task.extract ≠ some (.bool true) →
      (processTask task s).extractCall = none ∧ (processTask task s).crashed = false)
    ∧ (task.execute ≠ some (.bool true) → (processTask task s).execCall = none) := by
  constructor
  · intro hx
    constructor <;> simp [processTask, hx]
  · intro he
    rcases hkc : task.kaggle_competition with _ | n <;>
      rcases hkd : task.kaggle_dataset with _ | m <;>
      rcases hu : task.url with _ | u <;>
      rcases hgf : task.github_file with _ | gf <;>
      rcases hgr : task.github_repo with _ | gr <;>
      by_cases hx : task.extract = some (YVal.bool true) <;>
      simp [processTask, hkc, hkd, hu, hgf, hgr, hx, he]

/-- Witness for C8: the truthy values `1` and `"run"` do not trigger the
extract or execute steps. -/
theorem C8_flags_require_identity_true_witness :
    (processTask { extract := some (.int 1), execute := some (.str "run") } s0).extractCall
        = none
    ∧ (processTask { extract := some (.int 1), execute := some (.str "run") } s0).crashed
        = false
    ∧ (processTask { extract := some (.int 1), execute := some (.str "run") } s0).execCall
        = none := by
  have h := C8_flags_require_identity_true
    { extract := some (.int 1), execute := some (.str "run") } s0
  exact ⟨(h.1 (by decide)).1, (h.1 (by decide)).2, h.2 (by decide)⟩

/-- C9: a task with none of the five source fields performs no fetch and
cannot crash, yet its extract and execute steps, when flagged with the
boolean `True`, still run on the task's `path` (default `"."`). -/
theorem C9_sourceless_task_postprocesses (task : Task) (s : Secrets)
    (h1 : task.url = none) (h2 : task.github_file = none) (h3 : task.github_repo = none)
    (h4 : task.kaggle_competition = none) (h5 : task.kaggle_dataset = none) :
    (processTask task s).fetch = none
    ∧ (processTask task s).crashed = false
    ∧ (task.extract = some (.bool true) →
        (processTask task s).extractCall =
          some { file := task.path.getD ".", dest := task.extract_to,
                 remove := (task.remove_compression.getD (.bool false)).truthy })
    ∧ (task.execute = some (.bool true) →
        (processTask task s).execCall = some (task.path.getD ".")) := by
  by_cases hx : task.extract = some (YVal.bool true) <;>
    refine ⟨?_, ?_, ?_, ?_⟩ <;>
    simp [processTask, h1, h2, h3, h4, h5, hx]

/-- Witness for C9: an empty-source task with both flags set extracts and
executes on the default path `"."`. -/
theorem C9_sourceless_task_postprocesses_witness :
    (processTask { extract := some (.bool true), execute := some (.bool true) } s0).fetch
        = none
    ∧ (processTask { extract := some (.bool true), execute := some (.bool true) } s0).extractCall
        = some { file := ".", dest := none, remove := false }
    ∧ (processTask { extract := some (.bool true), execute := some (.bool true) } s0).execCall
        = some "." := by
  have h := C9_sourceless_task_postprocesses
    { extract := some (.bool true), execute := some (.bool true) } s0 rfl rfl rfl rfl rfl
  exact ⟨h.1, (h.2.2.1 rfl).trans (by decide), (h.2.2.2 rfl).trans (by decide)⟩

/-- C1: for every kaggle-sourced task with `extract: true`, the path passed
to extraction is the implied archive path, never the raw `path`: for a
competition named `n` (not beginning with `/`) it is `<path>/<n>.zip`, and
for a dataset it is `<path>/<slug>.zip` where the slug is the final
`/`-separated segment of the dataset name. -/
theorem C1_kaggle_extraction_uses_archive_path (task : Task) (s : Secrets)
    (hu : task.url = none) (hgf : task.github_file = none) (hgr : task.github_repo = none)
    (he : task.extract = some (.bool true)) :
    (∀ n, task.kaggle_competition = some n →
      strStartsWith (n ++ ".zip") "/" = false →
      (processTask task s).extractCall =
        some { file := task.path.getD "." ++ "/" ++ n ++ ".zip", dest := task.extract_to,
               remove := (task.remove_compression.getD (.bool false)).truthy }
      ∧ task.path.getD "." ++ "/" ++ n ++ ".zip" ≠ task.path.getD ".")
    ∧ (task.kaggle_competition = none → ∀ n, task.kaggle_dataset = some n →
      (processTask task s).extractCall =
        some { file := task.path.getD "." ++ "/" ++ datasetSlug n ++ ".zip",
               dest := task.extract_to,
               remove := (task.remove_compression.getD (.bool false)).truthy }
      ∧ task.path.getD "." ++ "/" ++ datasetSlug n ++ ".zip" ≠ task.path.getD ".") := by
  constructor
  · intro n hn hs
    refine ⟨?_, append_slash_zip_ne _ _⟩
    have harch := kaggleCompetitionArchive_eq (task.path.getD ".") n hs
    simp [processTask, hu, hgf, hgr, hn, he, harch]
  · intro hkc n hn
    refine ⟨?_, append_slash_zip_ne _ _⟩
    have harch := kaggleDatasetArchive_eq (task.path.getD ".") n
    simp [processTask, hu, hgf, hgr, hkc, hn, he, harch]

/-- Witness for C1: a competition task and the spelled-out archive path. -/
theorem C1_kaggle_extraction_uses_archive_path_witness :
    (processTask { kaggle_competition := some "titanic", path := some "/data",
                   extract := some (.bool true) } s0).extractCall =
      some { file := "/data/titanic.zip", dest := none, remove := false } := by
  have h := C1_kaggle_extraction_uses_archive_path
    { kaggle_competition := some "titanic", path := some "/data",
      extract := some (.bool true) } s0 rfl rfl rfl rfl
  exact ((h.1 "titanic" rfl (by decide)).1).trans (by decide)

/-- C2 counterexample: a kaggle dataset task with `execute: true` but
without `extract: true` has the runner invoked on the raw `path`, not on
the implied archive path — the source only substitutes the archive path
inside the extract block — so the claim's "regardless of whether the task's
extract flag is set" is false. -/
theorem C2_counterexample_execute_raw_path :
    (processTask { kaggle_dataset := some "alice/titanic", path := some "/data",
                   execute := some (.bool true) } s0).execCall = some "/data"
    ∧ kaggleDatasetArchive "/data" "alice/titanic" = "/data/titanic.zip"
    ∧ ("/data" : String) ≠ "/data/titanic.zip" := by decide

/-- C2 amended: for every task with `execute: true`: if the extract flag is
also the boolean `True` and a kaggle field is present alongside a
higher-precedence source field (url or github), the iteration crashes in
the extract step — reading the never-computed archive path — and
ScriptRunner is not invoked at all; otherwise ScriptRunner is invoked on
the implied archive path when the extract flag is the boolean `True` and a
kaggle field is present, and on the original `path` in every other case
(url/github-sourced, sourceless, or kaggle-sourced without extract). -/
theorem C2_amended_execute_target (task : Task) (s : Secrets)
    (hex : task.execute = some (.bool true)) :
    ((task.extract = some (.bool true) ∧
      (task.kaggle_competition.isSome || task.kaggle_dataset.isSome) = true ∧
      (task.url.isSome || task.github_file.isSome || task.github_repo.isSome) = true) →
      (processTask task s).crashed = true ∧ (processTask task s).execCall = none)
    ∧ (¬(task.extract = some (.bool true) ∧
        (task.kaggle_competition.isSome || task.kaggle_dataset.isSome) = true ∧
        (task.url.isSome || task.github_file.isSome || task.github_repo.isSome) = true) →
      (processTask task s).execCall =
        some (if (task.extract = some (.bool true) ∧
                  (task.kaggle_competition.isSome || task.kaggle_dataset.isSome) = true)
              then (match task.kaggle_competition, task.kaggle_dataset with
                    | some n, _ => kaggleCompetitionArchive (task.path.getD ".") n
                    | none, some n => kaggleDatasetArchive (task.path.getD ".") n
                    | none, none => task.path.getD ".")
              else task.path.getD ".")) := by
  rcases hkc : task.kaggle_competition with _ | n <;>
    rcases hkd : task.kaggle_dataset with _ | m <;>
    rcases hu : task.url with _ | u <;>
    rcases hgf : task.github_file with _ | gf <;>
    rcases hgr : task.github_repo with _ | gr <;>
    by_cases hx : task.extract = some (YVal.bool true) <;>
    simp_all [processTask]

/-- Witness for C2 amended: a dataset task with both flags (and no shadowing
source field) executes the implied archive path. -/
theorem C2_amended_execute_target_witness :
    (processTask { kaggle_dataset := some "alice/titanic", path := some "/data",
                   extract := some (.bool true), execute := some (.bool true) } s0).execCall
      = some "/data/titanic.zip" := by
  have h := C2_amended_execute_target
    { kaggle_dataset := some "alice/titanic", path := some "/data",
      extract := some (.bool true), execute := some (.bool true) } s0 rfl
  exact (h.2 (by decide)).trans (by decide)

/-- C3 counterexample: the source tests `'github.com' in url` as a
substring, not as the URL host; a URL on host `evilgithub.com` containing
`/blob/` is rewritten rather than fetched unchanged, so the claim's
"otherwise the URL is fetched unchanged" (for non-`github.com` hosts) is
false. -/
theorem C3_counterexample_substring_not_host :
    urlHost "https://evilgithub.com/o/r/blob/main/f.py" = "evilgithub.com"
    ∧ strContains "https://evilgithub.com/o/r/blob/main/f.py" "/tree/" = false
    ∧ download_github w0 "https://evilgithub.com/o/r/blob/main/f.py" "/t" .file none =
        [.info "Processing github file", .mkParents "/t",
         .httpGet "https://evilraw.githubusercontent.com/o/r/main/f.py" "/t" none,
         .info "GitHub file download completed"]
    ∧ ("https://evilraw.githubusercontent.com/o/r/main/f.py" : String) ≠
        "https://evilgithub.com/o/r/blob/main/f.py" := by decide

/-- C3 amended: for every github_file task, a URL containing `/tree/` is
rejected with warnings and no network request; otherwise the request is made
on `github_raw_url url`, which rewrites the URL (replacing every
`github.com` by `raw.githubusercontent.com` and every `/blob/` by `/`)
exactly when the URL contains both `github.com` and `/blob/` as substrings,
and keeps it unchanged otherwise. -/
theorem C3_amended_github_file_url (w : World) (s : Secrets) (task : Task) (u : String)
    (hu : task.url = none) (hg : task.github_file = some u) :
    (processTask task s).fetch =
      some (.github u (task.path.getD ".") .file s.github_token)
    ∧ (strContains u "/tree/" = true →
        download_github w u (task.path.getD ".") .file s.github_token =
          [.info "Processing github file",
           .warn "URL contains /tree/, which is a folder",
           .warn "github_file is for single file only"])
    ∧ (strContains u "/tree/" = false →
        download_github w u (task.path.getD ".") .file s.github_token =
          (if w.httpOk (github_raw_url u) then
             [.info "Processing github file", .mkParents (task.path.getD "."),
              .httpGet (github_raw_url u) (task.path.getD ".")
                (if optTruthy s.github_token then s.github_token else none),
              .info "GitHub file download completed"]
           else
             [.info "Processing github file", .mkParents (task.path.getD "."),
              .httpGet (github_raw_url u) (task.path.getD ".")
                (if optTruthy s.github_token then s.github_token else none),
              .warn "GitHub file download failed"]))
    ∧ ((strContains u "github.com" && strContains u "/blob/") = true →
        github_raw_url u =
          strReplace (strReplace u "github.com" "raw.githubusercontent.com") "/blob/" "/")
    ∧ ((strContains u "github.com" && strContains u "/blob/") = false →
        github_raw_url u = u) := by
  refine ⟨?_, ?_, ?_, ?_, ?_⟩
  · rcases hkc : task.kaggle_competition with _ | n <;>
      rcases hkd : task.kaggle_dataset with _ | m <;>
      by_cases hx : task.extract = some (YVal.bool true) <;>
      simp [processTask, hu, hg, hkc, hkd, hx]
  · intro ht
    simp [download_github, ht]
  · intro ht
    simp [download_github, ht]
  · intro hb
    simp [github_raw_url, hb]
  · intro hb
    simp [github_raw_url, hb]

/-- Witness for C3 amended: a `github.com` blob URL is rewritten to the raw
host. -/
theorem C3_amended_github_file_url_witness :
    download_github w0 "https://github.com/o/r/blob/main/f.py" "/dst/f.py" .file none =
      [.info "Processing github file", .mkParents "/dst/f.py",
       .httpGet "https://raw.githubusercontent.com/o/r/main/f.py" "/dst/f.py" none,
       .info "GitHub file download completed"] := by
  have h := C3_amended_github_file_url w0 s0
    { github_file := some "https://github.com/o/r/blob/main/f.py",
      path := some "/dst/f.py" }
    "https://github.com/o/r/blob/main/f.py" rfl rfl
  exact (h.2.2.1 (by decide)).trans (by decide)

/-- C10 counterexample: on the local platform `get_secrets` loads the
dotenv file into the process environment, so `setup` modifies environment
variables other than KAGGLE_USERNAME and KAGGLE_KEY: here the unrelated
variable `FOO`, absent from the initial environment, is set to `bar`. -/
theorem C10_counterexample_dotenv_mutation :
    envGet (setup d0 scFoo { platform := some (.str "local") } []).2.1 "FOO" = some "bar"
    ∧ envGet ([] : Env) "FOO" = none
    ∧ ("FOO" : String) ≠ "KAGGLE_USERNAME"
    ∧ ("FOO" : String) ≠ "KAGGLE_KEY" := by decide

/-- C10 amended: `setup` writes KAGGLE_USERNAME and KAGGLE_KEY if and only
if both corresponding secrets are present and non-empty; when either is
missing neither credential variable is written by the credential block; and
apart from those two variables, `setup` changes the environment only
through the dotenv load performed by local-platform secret retrieval (on
colab and kaggle the secret phase leaves the environment untouched). -/
theorem C10_amended_env_frame (d : DetectCtx) (sc : SecretCtx) (cfg : Config) (env : Env)
    (hv : validPlatform (cfg.platform.getD (.str "auto")) = true) :
    (∀ key, key ≠ "KAGGLE_USERNAME" → key ≠ "KAGGLE_KEY" →
      envGet (setup d sc cfg env).2.1 key =
        envGet (get_secrets sc (setupPlatform d (cfg.platform.getD (.str "auto"))) env).2 key)
    ∧ ((setupPlatform d (cfg.platform.getD (.str "auto")) = "colab" ∨
        setupPlatform d (cfg.platform.getD (.str "auto")) = "kaggle") →
        (get_secrets sc (setupPlatform d (cfg.platform.getD (.str "auto"))) env).2 = env)
    ∧ ((optTruthy (get_secrets sc (setupPlatform d (cfg.platform.getD (.str "auto"))) env).1.kaggle_username &&
        optTruthy (get_secrets sc (setupPlatform d (cfg.platform.getD (.str "auto"))) env).1.kaggle_key) = true →
        envGet (setup d sc cfg env).2.1 "KAGGLE_USERNAME" =
          (get_secrets sc (setupPlatform d (cfg.platform.getD (.str "auto"))) env).1.kaggle_username
        ∧ envGet (setup d sc cfg env).2.1 "KAGGLE_KEY" =
          (get_secrets sc (setupPlatform d (cfg.platform.getD (.str "auto"))) env).1.kaggle_key)
    ∧ ((optTruthy (get_secrets sc (setupPlatform d (cfg.platform.getD (.str "auto"))) env).1.kaggle_username &&
        optTruthy (get_secrets sc (setupPlatform d (cfg.platform.getD (.str "auto"))) env).1.kaggle_key) = false →
        envGet (setup d sc cfg env).2.1 "KAGGLE_USERNAME" =
          envGet (get_secrets sc (setupPlatform d (cfg.platform.getD (.str "auto"))) env).2 "KAGGLE_USERNAME"
        ∧ envGet (setup d sc cfg env).2.1 "KAGGLE_KEY" =
          envGet (get_secrets sc (setupPlatform d (cfg.platform.getD (.str "auto"))) env).2 "KAGGLE_KEY") := by
  refine ⟨?_, ?_, ?_, ?_⟩
  · intro key hk1 hk2
    by_cases hb : (optTruthy (get_secrets sc (setupPlatform d (cfg.platform.getD (.str "auto"))) env).1.kaggle_username &&
        optTruthy (get_secrets sc (setupPlatform d (cfg.platform.getD (.str "auto"))) env).1.kaggle_key) = true
    · simp only [setup, hv, if_true, hb]
      rw [envGet_set_other _ _ _ _ hk2, envGet_set_other _ _ _ _ hk1]
    · simp [setup, hv, hb]
  · intro hp
    rcases hp with hp | hp <;> simp [get_secrets, hp]
  · intro hb
    rcases h2 : (get_secrets sc (setupPlatform d (cfg.platform.getD (.str "auto"))) env).1.kaggle_username with _ | uu
    · rw [h2] at hb
      simp [optTruthy] at hb
    · rcases h3 : (get_secrets sc (setupPlatform d (cfg.platform.getD (.str "auto"))) env).1.kaggle_key with _ | kk
      · rw [h3] at hb
        simp [optTruthy] at hb
      · rw [h2, h3] at hb
        constructor
        · simp only [setup, hv, if_true, h2, h3, Option.getD_some]
          simp only [hb, eq_self_iff_true, if_true]
          rw [envGet_set_other _ _ _ _ (by decide), envGet_set_self]
        · simp only [setup, hv, if_true, h2, h3, Option.getD_some]
          simp only [hb, eq_self_iff_true, if_true]
          rw [envGet_set_self]
  · intro hb
    simp [setup, hv, hb]

/-- Witness for C10 amended: on the local platform with both kaggle secrets
in the dotenv file, the credential block writes KAGGLE_USERNAME into the
environment. -/
theorem C10_amended_env_frame_witness :
    envGet (setup d0 scCreds { platform := some (.str "local") } []).2.1 "KAGGLE_USERNAME"
      = some "alice" := by
  have h := C10_amended_env_frame d0 scCreds { platform := some (.str "local") } []
    (by decide)
  exact ((h.2.2.1 (by decide)).1).trans (by decide)

end EnvKit
